import Mathlib

/-!
Shallow embedding of the two utilities of this repository:
`src/file_organizer.py` (workflow classifier and organizer) and
`src/backup_manager.py` (backup coordinator), together with theorems
settling the specification claims about them.

Python strings are modelled as Lean `String`; filesystem side effects
(copying a file into a bucket directory) are modelled as explicit lists of
(bucket, filename) pairs; environmental failures that the Python code
catches (I/O errors raised by copy, unlink, archive or write calls) are
modelled as explicit Boolean flags of an environment record, so the
control flow of every try/except block is translated exactly.
-/

/-- Python `str.lower()` restricted to the character-wise lowering used here. -/
def strLower (s : String) : String :=
  String.mk (s.toList.map Char.toLower)

/-- Helper for substring search: does `needle` occur at some position of `hay`. -/
def containsSubAux (needle : List Char) : List Char → Bool
  | [] => needle.isPrefixOf ([] : List Char)
  | c :: rest => needle.isPrefixOf (c :: rest) || containsSubAux needle rest

/-- Python `sub in s` substring containment test. -/
def containsSub (s sub : String) : Bool :=
  containsSubAux sub.toList s.toList

/-- Python `set.add` on a set modelled as an insertion-ordered duplicate-free list. -/
def addToSet (xs : List String) (x : String) : List String :=
  if xs.contains x then xs else xs ++ [x]

/-- Helper for Python `str.title()`: the Boolean tracks whether the previous
character was alphabetic. -/
def pyTitleAux : Bool → List Char → List Char
  | _, [] => []
  | prevAlpha, c :: rest =>
    if c.isAlpha then
      (if prevAlpha then c.toLower else c.toUpper) :: pyTitleAux true rest
    else
      c :: pyTitleAux false rest

/-- Python `str.title()` (ASCII behaviour). -/
def pyTitle (s : String) : String :=
  String.mk (pyTitleAux false s.toList)

/-- Helper for Python `str.replace`: left-to-right non-overlapping
replacement of every occurrence, with a fuel argument equal to the input
length so the recursion is structural. -/
def pyReplaceAux (pattern repl : List Char) : Nat → List Char → List Char
  | _, [] => []
  | 0, l => l
  | fuel + 1, c :: rest =>
    if pattern.isPrefixOf (c :: rest) then
      repl ++ pyReplaceAux pattern repl fuel (List.drop pattern.length (c :: rest))
    else c :: pyReplaceAux pattern repl fuel rest

/-- Python `s.replace(pattern, repl)` for the non-empty patterns used here. -/
def pyReplace (s pattern repl : String) : String :=
  String.mk (pyReplaceAux pattern.toList repl.toList s.toList.length s.toList)

/-- A workflow node: Python `node.get('type', '')` yields the empty string
when the key is absent, hence the `Option`. -/
structure Node where
  type : Option String
deriving DecidableEq, Repr

/-- A parsed workflow document: `data.get('nodes', [])` and
`data.get('active', False)` with the defaults already applied. -/
structure WorkflowDoc where
  nodes : List Node
  active : Bool
deriving DecidableEq, Repr

/-- The metadata dictionary built by `FileOrganizer.analyze_workflow`,
after the final set-to-list conversion. -/
structure WorkflowMetadata where
  filename : String
  active : Bool
  node_count : Nat
  trigger_type : String
  integrations : List String
  categories : List String
  complexity : String
deriving DecidableEq, Repr

/-- Outcome of `open` plus `json.load` on one file, restricted to the
fragment where a successful parse already has the expected document shape
(a JSON object whose nodes value is a list of objects with string type
values). This is the fragment the organizer claims quantify over; the
full model, `PyReadResult` below, carries arbitrary parsed JSON together
with the uncaught errors the analysis body then raises on other shapes. -/
inductive ReadResult where
  | unicodeErr
  | jsonErr
  | ok (d : WorkflowDoc)
deriving DecidableEq, Repr

/-- One source-directory file: its name and what reading it produces. -/
structure SourceFile where
  name : String
  content : ReadResult
deriving DecidableEq, Repr

/-- The `service_mappings` dictionary of `extract_service_name`, in its
insertion (iteration) order. -/
def service_mappings : List (String × String) :=
  [("telegram", "Telegram"), ("discord", "Discord"), ("slack", "Slack"),
   ("whatsapp", "WhatsApp"), ("gmail", "Gmail"), ("postgres", "PostgreSQL"),
   ("mysql", "MySQL"), ("mongodb", "MongoDB"), ("openai", "OpenAI"),
   ("github", "GitHub"), ("gitlab", "GitLab"), ("jira", "Jira")]

/-- `FileOrganizer.extract_service_name`. -/
def extract_service_name (node_type : String) : String :=
  match service_mappings.find? (fun kv => containsSub (strLower node_type) kv.1) with
  | some kv => kv.2
  | none => pyTitle (pyReplace node_type "dr.x-nodes-base." "")

/-- The trigger-type branch of the node loop of `analyze_workflow`:
one step, from the current `trigger_type` value and the lower-cased node type. -/
def updateTrigger (t : String) (nt : String) : String :=
  if containsSub nt "webhook" then "Webhook"
  else if containsSub nt "cron" || containsSub nt "schedule" then "Scheduled"
  else if containsSub nt "trigger" && t == "Manual" then "Triggered"
  else t

/-- Python `any(x in node_type for x in ks)`. -/
def anyKeyword (nt : String) (ks : List String) : Bool :=
  ks.any (fun k => containsSub nt k)

/-- The category/integration branch of the node loop of `analyze_workflow`:
one step, acting on the categories and integrations sets. -/
def categorizeNode (nt : String) (cats ints : List String) :
    List String × List String :=
  if anyKeyword nt ["telegram", "discord", "slack", "whatsapp"] then
    (addToSet cats "messaging", addToSet ints (extract_service_name nt))
  else if anyKeyword nt ["postgres", "mysql", "mongodb", "airtable"] then
    (addToSet cats "database", addToSet ints (extract_service_name nt))
  else if anyKeyword nt ["openai", "anthropic", "huggingface"] then
    (addToSet cats "ai_ml", addToSet ints (extract_service_name nt))
  else if anyKeyword nt ["gmail", "mailjet", "outlook"] then
    (addToSet cats "email", addToSet ints (extract_service_name nt))
  else if anyKeyword nt ["googledrive", "dropbox", "onedrive"] then
    (addToSet cats "storage", addToSet ints (extract_service_name nt))
  else if anyKeyword nt ["github", "gitlab", "jira"] then
    (addToSet cats "development", addToSet ints (extract_service_name nt))
  else if anyKeyword nt ["http", "webhook", "api"] then
    (addToSet cats "api", ints)
  else (cats, ints)

/-- One iteration of the node loop of `analyze_workflow`, carrying
(trigger_type, categories, integrations). -/
def analyzeStep (acc : String × List String × List String) (node : Node) :
    String × List String × List String :=
  let nt := strLower (node.type.getD "")
  (updateTrigger acc.1 nt, categorizeNode nt acc.2.1 acc.2.2)

/-- The complexity tier computed from `node_count`. -/
def complexityOf (n : Nat) : String :=
  if n ≤ 5 then "low" else if n ≤ 15 then "medium" else "high"

/-- `analyze_workflow` on a successfully parsed document. -/
def analyzeDoc (filename : String) (d : WorkflowDoc) : WorkflowMetadata :=
  let acc := d.nodes.foldl analyzeStep ("Manual", [], [])
  { filename := filename
    active := d.active
    node_count := d.nodes.length
    trigger_type := acc.1
    integrations := acc.2.2
    categories := acc.2.1
    complexity := complexityOf d.nodes.length }

/-- `FileOrganizer.analyze_workflow`: returns `none` exactly on the two
exception kinds caught by its try/except. -/
def analyze_workflow (filename : String) (r : ReadResult) :
    Option WorkflowMetadata :=
  match r with
  | .unicodeErr => none
  | .jsonErr => none
  | .ok d => some (analyzeDoc filename d)

/-- Copies made for one file by the loop body of `organize_by_category`:
a list of (bucket directory, copied file name) pairs. -/
def category_copies (f : SourceFile) : List (String × String) :=
  match analyze_workflow f.name f.content with
  | none => []
  | some m =>
    let categories := if m.categories.isEmpty then ["uncategorized"] else m.categories
    categories.map (fun c => (c, f.name))

/-- `FileOrganizer.organize_by_category` over the glob result, as the list
of copies it performs under by_category. -/
def organize_by_category (files : List SourceFile) : List (String × String) :=
  files.flatMap category_copies

/-- Copies made for one file by the loop body of `organize_by_complexity`. -/
def complexity_copies (f : SourceFile) : List (String × String) :=
  match analyze_workflow f.name f.content with
  | none => []
  | some m => [(m.complexity, f.name)]

/-- `FileOrganizer.organize_by_complexity` as the list of copies under
by_complexity. -/
def organize_by_complexity (files : List SourceFile) : List (String × String) :=
  files.flatMap complexity_copies

/-- Copies made for one file by the loop body of `organize_by_trigger`;
the bucket name is the trigger type lower-cased with spaces replaced. -/
def trigger_copies (f : SourceFile) : List (String × String) :=
  match analyze_workflow f.name f.content with
  | none => []
  | some m => [(pyReplace (strLower m.trigger_type) " " "_", f.name)]

/-- `FileOrganizer.organize_by_trigger` as the list of copies under
by_trigger. -/
def organize_by_trigger (files : List SourceFile) : List (String × String) :=
  files.flatMap trigger_copies

/-- Bucket-name sanitization of `organize_by_integration`. -/
def safeIntegrationName (integration : String) : String :=
  pyReplace (pyReplace (strLower integration) " " "_") "." "_"

/-- Copies made for one file by the loop body of `organize_by_integration`. -/
def integration_copies (f : SourceFile) : List (String × String) :=
  match analyze_workflow f.name f.content with
  | none => []
  | some m =>
    let integrations := if m.integrations.isEmpty then ["no_integration"] else m.integrations
    integrations.map (fun i => (safeIntegrationName i, f.name))

/-- `FileOrganizer.organize_by_integration` as the list of copies under
by_integration. -/
def organize_by_integration (files : List SourceFile) : List (String × String) :=
  files.flatMap integration_copies

/-- Claim C4: complexity is a function of node_count alone, with boundaries
5 low, 6 and 15 medium, 16 high. -/
theorem C4_complexity_boundaries :
    (∀ filename d, (analyzeDoc filename d).complexity = complexityOf d.nodes.length) ∧
    (∀ filename d, (analyzeDoc filename d).node_count = d.nodes.length) ∧
    (∀ n : Nat, n ≤ 5 → complexityOf n = "low") ∧
    (∀ n : Nat, 6 ≤ n → n ≤ 15 → complexityOf n = "medium") ∧
    (∀ n : Nat, 16 ≤ n → complexityOf n = "high") ∧
    complexityOf 5 = "low" ∧ complexityOf 6 = "medium" ∧
    complexityOf 15 = "medium" ∧ complexityOf 16 = "high" := by
  refine ⟨fun _ _ => rfl, fun _ _ => rfl, ?_, ?_, ?_, by decide, by decide, by decide, by decide⟩
  · intro n h
    simp [complexityOf, h]
  · intro n h6 h15
    have : ¬ n ≤ 5 := by omega
    simp [complexityOf, this, h15]
  · intro n h
    have h5 : ¬ n ≤ 5 := by omega
    have h15 : ¬ n ≤ 15 := by omega
    simp [complexityOf, h5, h15]

/-- Witness for C4 at node_count 7. -/
theorem C4_complexity_boundaries_witness :
    complexityOf 7 = "medium" :=
  C4_complexity_boundaries.2.2.2.1 7 (by decide) (by decide)

/-- Does a node type match any keyword of the trigger-type branch chain. -/
def matchesTriggerKeyword (nt : String) : Bool :=
  containsSub nt "webhook" || containsSub nt "cron" ||
    containsSub nt "schedule" || containsSub nt "trigger"

/-- The trigger_type component of the node-loop fold only depends on the
trigger branch: it equals a fold of `updateTrigger` alone. -/
theorem foldl_analyzeStep_fst (nodes : List Node) (t : String)
    (ci : List String × List String) :
    (nodes.foldl analyzeStep (t, ci)).1 =
      nodes.foldl (fun s n => updateTrigger s (strLower (n.type.getD ""))) t := by
  induction nodes generalizing t ci with
  | nil => rfl
  | cons n ns ih =>
    simp only [List.foldl_cons, analyzeStep]
    exact ih _ _

/-- A node matching no trigger keyword leaves the trigger value unchanged. -/
theorem updateTrigger_no_match (t nt : String)
    (h : matchesTriggerKeyword nt = false) : updateTrigger t nt = t := by
  simp only [matchesTriggerKeyword, Bool.or_eq_false_iff] at h
  simp [updateTrigger, h.1.1.1, h.1.1.2, h.1.2, h.2]

/-- A document none of whose nodes matches a trigger keyword keeps the
initial trigger value through the fold. -/
theorem foldl_updateTrigger_no_match (nodes : List Node) (t : String)
    (h : ∀ n ∈ nodes, matchesTriggerKeyword (strLower (n.type.getD "")) = false) :
    nodes.foldl (fun s n => updateTrigger s (strLower (n.type.getD ""))) t = t := by
  induction nodes generalizing t with
  | nil => rfl
  | cons n ns ih =>
    simp only [List.foldl_cons]
    rw [updateTrigger_no_match _ _ (h n (List.mem_cons_self n ns))]
    exact ih t (fun m hm => h m (List.mem_cons_of_mem n hm))

/-- Claim C1: trigger_type resolution scans nodes in document order; a node
whose lower-cased type contains "webhook" sets Webhook, otherwise one
containing "cron" or "schedule" sets Scheduled, otherwise one containing
"trigger" sets Triggered only when the value is still Manual; the default
is Manual; a schedule node followed by a generic trigger node yields
Scheduled. -/
theorem C1_trigger_resolution :
    (∀ filename d, (analyzeDoc filename d).trigger_type =
        d.nodes.foldl (fun s n => updateTrigger s (strLower (n.type.getD ""))) "Manual") ∧
    (∀ t nt, containsSub nt "webhook" = true → updateTrigger t nt = "Webhook") ∧
    (∀ t nt, containsSub nt "webhook" = false →
        (containsSub nt "cron" = true ∨ containsSub nt "schedule" = true) →
        updateTrigger t nt = "Scheduled") ∧
    (∀ nt, containsSub nt "webhook" = false → containsSub nt "cron" = false →
        containsSub nt "schedule" = false → containsSub nt "trigger" = true →
        updateTrigger "Manual" nt = "Triggered") ∧
    (∀ t nt, containsSub nt "webhook" = false → containsSub nt "cron" = false →
        containsSub nt "schedule" = false →
        (containsSub nt "trigger" = false ∨ t ≠ "Manual") →
        updateTrigger t nt = t) ∧
    (∀ filename d,
        (∀ n ∈ d.nodes, matchesTriggerKeyword (strLower (n.type.getD "")) = false) →
        (analyzeDoc filename d).trigger_type = "Manual") ∧
    (analyzeDoc "wf.json"
        ⟨[⟨some "dr.x-nodes-base.scheduleTrigger"⟩,
          ⟨some "dr.x-nodes-base.someTrigger"⟩], true⟩).trigger_type = "Scheduled" := by
  refine ⟨fun filename d => foldl_analyzeStep_fst d.nodes "Manual" ([], []), ?_, ?_, ?_, ?_, ?_, by decide⟩
  · intro t nt h
    simp [updateTrigger, h]
  · intro t nt hw hcs
    rcases hcs with h | h <;> simp [updateTrigger, hw, h]
  · intro nt hw hc hs ht
    simp [updateTrigger, hw, hc, hs, ht]
  · intro t nt hw hc hs ht
    rcases ht with h | h
    · simp [updateTrigger, hw, hc, hs, h]
    · simp [updateTrigger, hw, hc, hs, h]
  · intro filename d h
    have e : (analyzeDoc filename d).trigger_type =
        d.nodes.foldl (fun s n => updateTrigger s (strLower (n.type.getD ""))) "Manual" :=
      foldl_analyzeStep_fst d.nodes "Manual" ([], [])
    rw [e]
    exact foldl_updateTrigger_no_match d.nodes "Manual" h

/-- Witness for C1: a webhook node sets Webhook from any current value. -/
theorem C1_trigger_resolution_witness :
    updateTrigger "Manual" "a-webhook-node" = "Webhook" :=
  C1_trigger_resolution.2.1 "Manual" "a-webhook-node" (by decide)

/-- Claim C10: the webhook and cron/schedule branches assign unconditionally,
so within those two classes resolution is last-match-wins: a later
cron/schedule node overwrites Webhook and a later webhook node overwrites
Scheduled. -/
theorem C10_later_match_overwrites :
    (∀ nt, containsSub nt "webhook" = false →
        (containsSub nt "cron" = true ∨ containsSub nt "schedule" = true) →
        updateTrigger "Webhook" nt = "Scheduled") ∧
    (∀ nt, containsSub nt "webhook" = true →
        updateTrigger "Scheduled" nt = "Webhook") ∧
    (analyzeDoc "b.json"
        ⟨[⟨some "n-webhook"⟩, ⟨some "n-cron"⟩], false⟩).trigger_type = "Scheduled" ∧
    (analyzeDoc "b.json"
        ⟨[⟨some "n-cron"⟩, ⟨some "n-webhook"⟩], false⟩).trigger_type = "Webhook" := by
  refine ⟨?_, ?_, by decide, by decide⟩
  · intro nt hw hcs
    rcases hcs with h | h <;> simp [updateTrigger, hw, h]
  · intro nt h
    simp [updateTrigger, h]

/-- Witness for C10: a cron node overwrites an already-set Webhook value. -/
theorem C10_later_match_overwrites_witness :
    updateTrigger "Webhook" "my-cron" = "Scheduled" :=
  C10_later_match_overwrites.1 "my-cron" (by decide) (Or.inl (by decide))

/-- A file is analyzable when `analyze_workflow` returns metadata for it. -/
def analyzable (f : SourceFile) : Bool :=
  (analyze_workflow f.name f.content).isSome

/-- Files whose per-file copy list is empty contribute nothing to a batch,
so a batch equals the batch over its analyzable files only. -/
theorem flatMap_eq_flatMap_filter {α β : Type} (p : α → Bool) (g : α → List β)
    (h : ∀ a, p a = false → g a = []) (l : List α) :
    l.flatMap g = (l.filter p).flatMap g := by
  induction l with
  | nil => rfl
  | cons a as ih =>
    cases hp : p a with
    | false => simp [List.filter_cons, hp, h a hp, ih]
    | true => simp [List.filter_cons, hp, ih]

/-- An unanalyzable file produces no by_category copies. -/
theorem category_copies_of_unanalyzable (f : SourceFile)
    (hf : analyzable f = false) : category_copies f = [] := by
  unfold analyzable at hf
  cases hx : analyze_workflow f.name f.content with
  | none => simp [category_copies, hx]
  | some m => rw [hx] at hf; simp at hf

/-- An unanalyzable file produces no by_complexity copies. -/
theorem complexity_copies_of_unanalyzable (f : SourceFile)
    (hf : analyzable f = false) : complexity_copies f = [] := by
  unfold analyzable at hf
  cases hx : analyze_workflow f.name f.content with
  | none => simp [complexity_copies, hx]
  | some m => rw [hx] at hf; simp at hf

/-- An unanalyzable file produces no by_trigger copies. -/
theorem trigger_copies_of_unanalyzable (f : SourceFile)
    (hf : analyzable f = false) : trigger_copies f = [] := by
  unfold analyzable at hf
  cases hx : analyze_workflow f.name f.content with
  | none => simp [trigger_copies, hx]
  | some m => rw [hx] at hf; simp at hf

/-- An unanalyzable file produces no by_integration copies. -/
theorem integration_copies_of_unanalyzable (f : SourceFile)
    (hf : analyzable f = false) : integration_copies f = [] := by
  unfold analyzable at hf
  cases hx : analyze_workflow f.name f.content with
  | none => simp [integration_copies, hx]
  | some m => rw [hx] at hf; simp at hf

/-- Claim C3: analysis and organization are deterministic pure functions of
the input content. -/
theorem C3_determinism :
    (∀ (n₁ n₂ : String) (r₁ r₂ : ReadResult), n₁ = n₂ → r₁ = r₂ →
        analyze_workflow n₁ r₁ = analyze_workflow n₂ r₂) ∧
    (∀ fs₁ fs₂ : List SourceFile, fs₁ = fs₂ →
        organize_by_category fs₁ = organize_by_category fs₂ ∧
        organize_by_complexity fs₁ = organize_by_complexity fs₂ ∧
        organize_by_trigger fs₁ = organize_by_trigger fs₂ ∧
        organize_by_integration fs₁ = organize_by_integration fs₂) := by
  constructor
  · rintro n₁ n₂ r₁ r₂ rfl rfl
    rfl
  · rintro fs₁ fs₂ rfl
    exact ⟨rfl, rfl, rfl, rfl⟩

/-- Witness for C3 on a concrete document. -/
theorem C3_determinism_witness :
    analyze_workflow "a.json" (ReadResult.ok ⟨[⟨some "n-slack"⟩], true⟩) =
      analyze_workflow "a.json" (ReadResult.ok ⟨[⟨some "n-slack"⟩], true⟩) :=
  C3_determinism.1 "a.json" "a.json" _ _ rfl rfl

/-- A concrete workflow file containing both a Slack node and a GitHub node. -/
def slackGithubFile : SourceFile :=
  ⟨"wf.json",
   ReadResult.ok ⟨[⟨some "dr.x-nodes-base.slack"⟩,
                   ⟨some "dr.x-nodes-base.github"⟩], false⟩⟩

/-- Claim C5: an analyzable file is copied into every matching category and
integration bucket, with sentinel buckets on zero matches, but into exactly
one complexity bucket and exactly one trigger bucket; the Slack plus GitHub
example lands in both messaging and development and both integration
buckets. -/
theorem C5_multi_membership :
    (∀ (f : SourceFile) m, analyze_workflow f.name f.content = some m →
        m.categories ≠ [] →
        category_copies f = m.categories.map (fun c => (c, f.name))) ∧
    (∀ (f : SourceFile) m, analyze_workflow f.name f.content = some m →
        m.categories = [] → category_copies f = [("uncategorized", f.name)]) ∧
    (∀ (f : SourceFile) m, analyze_workflow f.name f.content = some m →
        m.integrations ≠ [] →
        integration_copies f = m.integrations.map (fun i => (safeIntegrationName i, f.name))) ∧
    (∀ (f : SourceFile) m, analyze_workflow f.name f.content = some m →
        m.integrations = [] → integration_copies f = [("no_integration", f.name)]) ∧
    (∀ (f : SourceFile) m, analyze_workflow f.name f.content = some m →
        complexity_copies f = [(m.complexity, f.name)] ∧
        (complexity_copies f).length = 1) ∧
    (∀ (f : SourceFile) m, analyze_workflow f.name f.content = some m →
        trigger_copies f = [(pyReplace (strLower m.trigger_type) " " "_", f.name)] ∧
        (trigger_copies f).length = 1) ∧
    (("messaging", "wf.json") ∈ organize_by_category [slackGithubFile] ∧
     ("development", "wf.json") ∈ organize_by_category [slackGithubFile]) ∧
    (("slack", "wf.json") ∈ organize_by_integration [slackGithubFile] ∧
     ("github", "wf.json") ∈ organize_by_integration [slackGithubFile]) ∧
    (organize_by_complexity [slackGithubFile]).length = 1 ∧
    (organize_by_trigger [slackGithubFile]).length = 1 := by
  refine ⟨?_, ?_, ?_, ?_, ?_, ?_, by decide, by decide, by decide, by decide⟩
  · intro f m h hne
    have : m.categories.isEmpty = false := by
      cases hm : m.categories with
      | nil => exact absurd hm hne
      | cons a as => rfl
    simp [category_copies, h, this]
  · intro f m h hm
    simp [category_copies, h, hm]
  · intro f m h hne
    have : m.integrations.isEmpty = false := by
      cases hm : m.integrations with
      | nil => exact absurd hm hne
      | cons a as => rfl
    simp [integration_copies, h, this]
  · intro f m h hm
    simp only [integration_copies, h, hm]
    rfl
  · intro f m h
    refine ⟨by simp [complexity_copies, h], ?_⟩
    simp [complexity_copies, h]
  · intro f m h
    refine ⟨by simp [trigger_copies, h], ?_⟩
    simp [trigger_copies, h]

/-- Witness for C5: the Slack plus GitHub file has exactly the two category
copies given by its metadata. -/
theorem C5_multi_membership_witness :
    category_copies slackGithubFile =
      (analyzeDoc "wf.json"
        ⟨[⟨some "dr.x-nodes-base.slack"⟩,
          ⟨some "dr.x-nodes-base.github"⟩], false⟩).categories.map
        (fun c => (c, "wf.json")) :=
  C5_multi_membership.1 slackGithubFile _ rfl (by decide)

/-- One backup-directory entry as seen by `cleanup_old_backups`: glob name,
modification time in seconds, whether it is a regular file, and whether an
unlink attempt on it would raise. -/
structure BFile where
  name : String
  mtime : Int
  is_file : Bool
  unlink_fails : Bool
deriving DecidableEq, Repr

/-- The loop of `BackupManager.cleanup_old_backups` over the directory
entries, returning the count of successful deletions and the entries left
on disk, given the cutoff time. -/
def cleanupLoop (cutoff : Int) : List BFile → Nat × List BFile
  | [] => (0, [])
  | f :: rest =>
    let r := cleanupLoop cutoff rest
    if f.is_file && decide (f.mtime < cutoff) then
      if f.unlink_fails then (r.1, f :: r.2) else (r.1 + 1, r.2)
    else (r.1, f :: r.2)

/-- `BackupManager.cleanup_old_backups`: the cutoff is now minus keep_days
expressed in seconds. -/
def cleanup_old_backups (now : Int) (keep_days : Int) (files : List BFile) :
    Nat × List BFile :=
  cleanupLoop (now - keep_days * 86400) files

/-- One backup-directory entry as seen by `list_backups`. -/
structure DirEntry where
  name : String
  mtime : Int
  is_file : Bool
deriving DecidableEq, Repr

/-- `BackupManager.get_backup_type`: classification by filename substring,
tested in this order. -/
def get_backup_type (filename : String) : String :=
  if containsSub filename "db_" then "database"
  else if containsSub filename "files_" then "workflows"
  else if containsSub filename "config_" then "configuration"
  else if containsSub filename "manifest_" then "manifest"
  else "unknown"

/-- The info dictionary `list_backups` builds per file (the displayed size
field is omitted; the created field is the modification time, whose ISO
rendering sorts like the underlying time). -/
structure BackupInfo where
  name : String
  created : Int
  type : String
deriving DecidableEq, Repr

/-- The descending-creation-time order used by the final `sorted` call. -/
abbrev createdGe (a b : BackupInfo) : Prop := b.created ≤ a.created

instance : IsTotal BackupInfo createdGe :=
  ⟨fun a b => Int.le_total b.created a.created⟩

instance : IsTrans BackupInfo createdGe :=
  ⟨fun _ _ _ h1 h2 => le_trans h2 h1⟩

/-- `BackupManager.list_backups`: keep regular files, build the info
records, sort by created descending. -/
def list_backups (entries : List DirEntry) : List BackupInfo :=
  let backups := (entries.filter (fun e => e.is_file)).map
    (fun e => { name := e.name, created := e.mtime, type := get_backup_type e.name : BackupInfo })
  List.insertionSort createdGe backups

/-- The environment of one `restore_database` call: which paths exist and
which of the two copy steps inside the try block would raise. -/
structure RestoreEnv where
  backup_exists : Bool
  db_exists : Bool
  copy_current_raises : Bool
  restore_raises : Bool
deriving DecidableEq, Repr

/-- Observable outcome of `restore_database`: the returned Boolean, whether
the safety copy of the live database was written, and whether control
reached the overwrite step at all. -/
structure RestoreOutcome where
  success : Bool
  safety_copy_made : Bool
  restore_attempted : Bool
deriving DecidableEq, Repr

/-- `BackupManager.restore_database`: the early return on a missing backup
path, then the single try block in which a raise at any step skips every
later step and returns False. -/
def restore_database (e : RestoreEnv) : RestoreOutcome :=
  if !e.backup_exists then ⟨false, false, false⟩
  else if e.db_exists && e.copy_current_raises then ⟨false, false, false⟩
  else if e.restore_raises then ⟨false, e.db_exists, true⟩
  else ⟨true, e.db_exists, true⟩

/-- The environment of one `create_full_backup` call: which inputs exist,
which operations would raise, and the statistics values that the two row
counts and the directory scan would produce. -/
structure BackupEnv where
  timestamp : String
  db_exists : Bool
  db_backup_raises : Bool
  workflows_dir_exists : Bool
  workflows_archive_raises : Bool
  config_write_raises : Bool
  manifest_write_raises : Bool
  db_query_raises : Bool
  total_workflows : Nat
  active_workflows : Nat
  workflow_file_count : Nat
  workflow_total_size : Nat
deriving DecidableEq, Repr

/-- `BackupManager.backup_database`: None on a missing database or on a
raise during copy or compression, else the compressed artifact path. -/
def backup_database (e : BackupEnv) : Option String :=
  if !e.db_exists then none
  else if e.db_backup_raises then none
  else some ("workflows_db_" ++ e.timestamp ++ ".db.gz")

/-- `BackupManager.backup_workflows`: None on a missing directory or on a
raise during archiving, else the archive path. -/
def backup_workflows (e : BackupEnv) : Option String :=
  if !e.workflows_dir_exists then none
  else if e.workflows_archive_raises then none
  else some ("workflows_files_" ++ e.timestamp ++ ".tar.gz")

/-- `BackupManager.backup_config`: missing config files are skipped inside
the loop, so only a raise while writing the snapshot yields None. -/
def backup_config (e : BackupEnv) : Option String :=
  if e.config_write_raises then none
  else some ("config_" ++ e.timestamp ++ ".json")

/-- The stats dictionary of `BackupManager.get_backup_stats`: each field is
present only when its data source is available. -/
structure BackupStats where
  total_workflows : Option Nat
  active_workflows : Option Nat
  workflow_files : Option Nat
  total_size : Option Nat
deriving DecidableEq, Repr

/-- `BackupManager.get_backup_stats`. -/
def get_backup_stats (e : BackupEnv) : BackupStats :=
  { total_workflows :=
      if e.db_exists && !e.db_query_raises then some e.total_workflows else none
    active_workflows :=
      if e.db_exists && !e.db_query_raises then some e.active_workflows else none
    workflow_files :=
      if e.workflows_dir_exists then some e.workflow_file_count else none
    total_size :=
      if e.workflows_dir_exists then some e.workflow_total_size else none }

/-- The manifest document written by `create_full_backup`. -/
structure BackupManifest where
  timestamp : String
  database : Option String
  workflows : Option String
  config : Option String
  stats : BackupStats
deriving DecidableEq, Repr

/-- The value returned by `create_full_backup` together with the manifest
document it wrote, when the write succeeded. -/
structure FullBackupResult where
  database : Option String
  workflows : Option String
  config : Option String
  manifest_path : Option String
  manifest : Option BackupManifest
deriving DecidableEq, Repr

/-- `BackupManager.create_full_backup`: the three component backups run
unconditionally, then the manifest write is attempted in its own
try/except. -/
def create_full_backup (e : BackupEnv) : FullBackupResult :=
  let db := backup_database e
  let wf := backup_workflows e
  let cfg := backup_config e
  let m : BackupManifest :=
    ⟨e.timestamp, db, wf, cfg, get_backup_stats e⟩
  if e.manifest_write_raises then
    ⟨db, wf, cfg, none, none⟩
  else
    ⟨db, wf, cfg, some ("backup_manifest_" ++ e.timestamp ++ ".json"), some m⟩

/-- The files left on disk by the cleanup loop are exactly those that are
not regular files older than the cutoff with a working unlink. -/
theorem cleanupLoop_snd (cutoff : Int) (files : List BFile) :
    (cleanupLoop cutoff files).2 =
      files.filter (fun f =>
        !(f.is_file && decide (f.mtime < cutoff) && !f.unlink_fails)) := by
  induction files with
  | nil => rfl
  | cons f fs ih =>
    cases h1 : f.is_file <;> cases h2 : decide (f.mtime < cutoff) <;>
      cases h3 : f.unlink_fails <;>
        simp [cleanupLoop, h1, h2, h3, List.filter_cons, ih]

/-- The count returned by the cleanup loop is the number of regular files
older than the cutoff whose unlink succeeded. -/
theorem cleanupLoop_fst (cutoff : Int) (files : List BFile) :
    (cleanupLoop cutoff files).1 =
      (files.filter (fun f =>
        f.is_file && decide (f.mtime < cutoff) && !f.unlink_fails)).length := by
  induction files with
  | nil => rfl
  | cons f fs ih =>
    cases h1 : f.is_file <;> cases h2 : decide (f.mtime < cutoff) <;>
      cases h3 : f.unlink_fails <;>
        simp [cleanupLoop, h1, h2, h3, List.filter_cons, ih]

/-- Claim C7: cleanup_old_backups deletes exactly the regular files whose
modification time precedes now minus keep_days, leaves every other entry
untouched, continues past individual delete failures, and returns the
count of successful deletions. -/
theorem C7_cleanup_old_backups :
    (∀ (now keep_days : Int) (files : List BFile),
        (cleanup_old_backups now keep_days files).2 =
          files.filter (fun f =>
            !(f.is_file && decide (f.mtime < now - keep_days * 86400) &&
              !f.unlink_fails))) ∧
    (∀ (now keep_days : Int) (files : List BFile),
        (cleanup_old_backups now keep_days files).1 =
          (files.filter (fun f =>
            f.is_file && decide (f.mtime < now - keep_days * 86400) &&
              !f.unlink_fails)).length) ∧
    (∀ (now keep_days : Int) (files : List BFile),
        (∀ f ∈ files, f.unlink_fails = false) →
        (cleanup_old_backups now keep_days files).2 =
          files.filter (fun f =>
            !(f.is_file && decide (f.mtime < now - keep_days * 86400))) ∧
        (cleanup_old_backups now keep_days files).1 =
          (files.filter (fun f =>
            f.is_file && decide (f.mtime < now - keep_days * 86400))).length) := by
  refine ⟨?_, ?_, ?_⟩
  · intro now keep_days files
    exact cleanupLoop_snd _ files
  · intro now keep_days files
    exact cleanupLoop_fst _ files
  · intro now keep_days files h
    constructor
    · unfold cleanup_old_backups
      rw [cleanupLoop_snd]
      apply List.filter_congr
      intro f hf
      simp [h f hf]
    · unfold cleanup_old_backups
      rw [cleanupLoop_fst]
      congr 1
      apply List.filter_congr
      intro f hf
      simp [h f hf]

/-- Witness for C7: one old file and one recent file, no delete failures. -/
theorem C7_cleanup_old_backups_witness :
    (cleanup_old_backups 2592001 30
        ([⟨"old.db.gz", 0, true, false⟩, ⟨"new.db.gz", 2592000, true, false⟩] :
          List BFile)).2 =
      ([⟨"old.db.gz", 0, true, false⟩, ⟨"new.db.gz", 2592000, true, false⟩] :
          List BFile).filter
        (fun f => !(f.is_file && decide (f.mtime < 2592001 - 30 * 86400))) ∧
    (cleanup_old_backups 2592001 30
        ([⟨"old.db.gz", 0, true, false⟩, ⟨"new.db.gz", 2592000, true, false⟩] :
          List BFile)).1 =
      (([⟨"old.db.gz", 0, true, false⟩, ⟨"new.db.gz", 2592000, true, false⟩] :
          List BFile).filter
        (fun f => f.is_file && decide (f.mtime < 2592001 - 30 * 86400))).length :=
  C7_cleanup_old_backups.2.2 2592001 30
    ([⟨"old.db.gz", 0, true, false⟩, ⟨"new.db.gz", 2592000, true, false⟩] :
      List BFile) (by decide)

/-- Counterexample for C6: with the backup path present, the live database
present, and a raise in the safety copy, restore_database returns failure
without ever reaching the overwrite step, so the safety copy failure does
block the restore. -/
theorem C6_restore_counterexample :
    (restore_database ⟨true, true, true, false⟩).restore_attempted = false ∧
    (restore_database ⟨true, true, true, false⟩).success = false := by
  decide

/-- Claim C6 amended: restore_database fails without touching anything when
the backup path is missing; when it exists and the live database exists,
the safety copy is made first and, when the copy raises, the whole call
fails without attempting the restore; the restore proceeds when the safety
copy step did not raise. -/
theorem C6_restore_database_amended :
    (∀ e : RestoreEnv, e.backup_exists = false →
        restore_database e = ⟨false, false, false⟩) ∧
    (∀ e : RestoreEnv, e.backup_exists = true → e.db_exists = true →
        e.copy_current_raises = false →
        (restore_database e).safety_copy_made = true ∧
        (restore_database e).restore_attempted = true) ∧
    (∀ e : RestoreEnv, e.backup_exists = true → e.db_exists = true →
        e.copy_current_raises = true →
        restore_database e = ⟨false, false, false⟩) ∧
    (∀ e : RestoreEnv, e.backup_exists = true →
        (e.db_exists && e.copy_current_raises) = false →
        e.restore_raises = false → (restore_database e).success = true) ∧
    (∀ e : RestoreEnv, e.backup_exists = true → e.db_exists = false →
        (restore_database e).safety_copy_made = false ∧
        (restore_database e).restore_attempted = true) := by
  refine ⟨?_, ?_, ?_, ?_, ?_⟩
  · rintro ⟨b, d, c, r⟩ h1
    subst h1
    rfl
  · rintro ⟨b, d, c, r⟩ h1 h2 h3
    subst h1; subst h2; subst h3
    cases r <;> simp [restore_database]
  · rintro ⟨b, d, c, r⟩ h1 h2 h3
    subst h1; subst h2; subst h3
    rfl
  · rintro ⟨b, d, c, r⟩ h1 h2 h3
    subst h1; subst h3
    cases d <;> cases c <;> simp_all [restore_database]
  · rintro ⟨b, d, c, r⟩ h1 h2
    subst h1; subst h2
    cases c <;> cases r <;> simp [restore_database]

/-- Witness for C6: a missing backup path yields the untouched failure
outcome. -/
theorem C6_restore_database_amended_witness :
    restore_database ⟨false, true, false, false⟩ = ⟨false, false, false⟩ :=
  C6_restore_database_amended.1 ⟨false, true, false, false⟩ rfl

/-- The full-backup environment of the C8 scenario: workflow directory
missing, everything else healthy. -/
def missingWorkflowsEnv : BackupEnv :=
  ⟨"20240101_120000", true, false, false, false, false, false, false, 10, 4, 0, 0⟩

/-- Claim C8: create_full_backup runs all three component backups
unconditionally, each component depends only on its own inputs, the
manifest is then written recording exactly which artifacts succeeded plus
the current statistics, and with the workflow directory missing the
manifest still appears with the workflows artifact absent and the database
and config artifacts present. -/
theorem C8_create_full_backup :
    (∀ e, (create_full_backup e).database = backup_database e) ∧
    (∀ e, (create_full_backup e).workflows = backup_workflows e) ∧
    (∀ e, (create_full_backup e).config = backup_config e) ∧
    (∀ e₁ e₂ : BackupEnv, e₁.timestamp = e₂.timestamp →
        e₁.db_exists = e₂.db_exists → e₁.db_backup_raises = e₂.db_backup_raises →
        backup_database e₁ = backup_database e₂) ∧
    (∀ e₁ e₂ : BackupEnv, e₁.timestamp = e₂.timestamp →
        e₁.workflows_dir_exists = e₂.workflows_dir_exists →
        e₁.workflows_archive_raises = e₂.workflows_archive_raises →
        backup_workflows e₁ = backup_workflows e₂) ∧
    (∀ e₁ e₂ : BackupEnv, e₁.timestamp = e₂.timestamp →
        e₁.config_write_raises = e₂.config_write_raises →
        backup_config e₁ = backup_config e₂) ∧
    (∀ e : BackupEnv, e.manifest_write_raises = false →
        (create_full_backup e).manifest =
          some ⟨e.timestamp, backup_database e, backup_workflows e,
                backup_config e, get_backup_stats e⟩) ∧
    ((create_full_backup missingWorkflowsEnv).workflows = none ∧
     (create_full_backup missingWorkflowsEnv).database =
        some "workflows_db_20240101_120000.db.gz" ∧
     (create_full_backup missingWorkflowsEnv).config =
        some "config_20240101_120000.json" ∧
     (create_full_backup missingWorkflowsEnv).manifest =
        some ⟨"20240101_120000", some "workflows_db_20240101_120000.db.gz",
              none, some "config_20240101_120000.json",
              get_backup_stats missingWorkflowsEnv⟩) := by
  refine ⟨?_, ?_, ?_, ?_, ?_, ?_, ?_, by decide⟩
  · intro e
    cases h : e.manifest_write_raises <;> simp [create_full_backup, h]
  · intro e
    cases h : e.manifest_write_raises <;> simp [create_full_backup, h]
  · intro e
    cases h : e.manifest_write_raises <;> simp [create_full_backup, h]
  · intro e₁ e₂ h1 h2 h3
    simp [backup_database, h1, h2, h3]
  · intro e₁ e₂ h1 h2 h3
    simp [backup_workflows, h1, h2, h3]
  · intro e₁ e₂ h1 h2
    simp [backup_config, h1, h2]
  · intro e h
    simp [create_full_backup, h]

/-- Witness for C8: the database artifact is unchanged when only the
workflow, config and manifest parts of the environment change. -/
theorem C8_create_full_backup_witness :
    backup_database ⟨"t", true, false, true, false, false, false, false, 0, 0, 0, 0⟩ =
      backup_database ⟨"t", true, false, false, true, true, true, true, 1, 2, 3, 4⟩ :=
  C8_create_full_backup.2.2.2.1 _ _ rfl rfl rfl

/-- Claim C9: list_backups keeps the regular files of the backup directory,
classifies each by filename substring in the order db_, files_, config_,
manifest_, else unknown, and returns them sorted by creation time
descending, so backups created at T1 < T2 < T3 come out as [T3, T2, T1]. -/
theorem C9_list_backups :
    (∀ filename, containsSub filename "db_" = true →
        get_backup_type filename = "database") ∧
    (∀ filename, containsSub filename "db_" = false →
        containsSub filename "files_" = true →
        get_backup_type filename = "workflows") ∧
    (∀ filename, containsSub filename "db_" = false →
        containsSub filename "files_" = false →
        containsSub filename "config_" = true →
        get_backup_type filename = "configuration") ∧
    (∀ filename, containsSub filename "db_" = false →
        containsSub filename "files_" = false →
        containsSub filename "config_" = false →
        containsSub filename "manifest_" = true →
        get_backup_type filename = "manifest") ∧
    (∀ filename, containsSub filename "db_" = false →
        containsSub filename "files_" = false →
        containsSub filename "config_" = false →
        containsSub filename "manifest_" = false →
        get_backup_type filename = "unknown") ∧
    (∀ entries, List.Sorted createdGe (list_backups entries)) ∧
    (∀ entries, (list_backups entries).Perm
        ((entries.filter (fun e => e.is_file)).map
          (fun e => { name := e.name, created := e.mtime,
                      type := get_backup_type e.name : BackupInfo }))) ∧
    (∀ entries (b : BackupInfo), b ∈ list_backups entries →
        b.type = get_backup_type b.name) ∧
    (list_backups
        ([⟨"workflows_db_T1.db.gz", 1, true⟩,
          ⟨"workflows_files_T2.tar.gz", 2, true⟩,
          ⟨"backup_manifest_T3.json", 3, true⟩] : List DirEntry) =
      ([⟨"backup_manifest_T3.json", 3, "manifest"⟩,
        ⟨"workflows_files_T2.tar.gz", 2, "workflows"⟩,
        ⟨"workflows_db_T1.db.gz", 1, "database"⟩] : List BackupInfo)) := by
  refine ⟨?_, ?_, ?_, ?_, ?_, ?_, ?_, ?_, by decide⟩
  · intro filename h
    simp [get_backup_type, h]
  · intro filename h1 h2
    simp [get_backup_type, h1, h2]
  · intro filename h1 h2 h3
    simp [get_backup_type, h1, h2, h3]
  · intro filename h1 h2 h3 h4
    simp [get_backup_type, h1, h2, h3, h4]
  · intro filename h1 h2 h3 h4
    simp [get_backup_type, h1, h2, h3, h4]
  · intro entries
    exact List.sorted_insertionSort createdGe _
  · intro entries
    exact List.perm_insertionSort createdGe _
  · intro entries b hb
    have hp := List.perm_insertionSort createdGe
      ((entries.filter (fun e => e.is_file)).map
        (fun e => { name := e.name, created := e.mtime,
                    type := get_backup_type e.name : BackupInfo }))
    have hb2 := hp.mem_iff.mp hb
    rcases List.mem_map.mp hb2 with ⟨e, he, rfl⟩
    rfl

/-- Witness for C9: a filename containing db_ classifies as database. -/
theorem C9_list_backups_witness :
    get_backup_type "workflows_db_20240101_120000.db.gz" = "database" :=
  C9_list_backups.1 "workflows_db_20240101_120000.db.gz" (by decide)

/-- An arbitrary value returned by a successful `json.load`. -/
inductive JsonValue where
  | null
  | bool (b : Bool)
  | num (n : Int)
  | str (s : String)
  | arr (elems : List JsonValue)
  | obj (fields : List (String × JsonValue))

/-- The exception kinds relevant to `analyze_workflow`: the caught parse
failure, and the two uncaught kinds its body can raise on valid JSON of an
unexpected shape. -/
inductive PyError where
  | parseError
  | attributeError
  | typeError
deriving DecidableEq, Repr

/-- Outcome of `open` plus `json.load` on one file, unrestricted: the two
caught exception kinds, or whatever JSON value the parse produced. -/
inductive PyReadResult where
  | unicodeErr
  | jsonErr
  | parsed (v : JsonValue)

/-- One source-directory file in the unrestricted model. -/
structure PySourceFile where
  name : String
  content : PyReadResult

/-- Python `dict.get(key, default)` on a parsed JSON object; `json.load`
keeps the last binding of a duplicated key, hence the reverse search. -/
def jsonGet (fields : List (String × JsonValue)) (key : String)
    (default : JsonValue) : JsonValue :=
  match fields.reverse.find? (fun kv => kv.1 == key) with
  | some kv => kv.2
  | none => default

/-- Python `len` on a JSON value: length of a list, string or dict,
TypeError on anything else. -/
def pyLen : JsonValue → Except PyError Nat
  | .arr elems => .ok elems.length
  | .str s => .ok s.length
  | .obj fields => .ok fields.length
  | _ => .error .typeError

/-- Python iteration over the nodes value once `len` has succeeded: the
elements of a list, the one-character strings of a string, the keys of a
dict (the remaining shapes already failed `len`). -/
def pyElems : JsonValue → List JsonValue
  | .arr elems => elems
  | .str s => s.toList.map (fun c => JsonValue.str (String.mk [c]))
  | .obj fields => fields.map (fun kv => JsonValue.str kv.1)
  | _ => []

/-- Python `node.get('type', '').lower()` before the lowering: the string
value (or the default empty string), AttributeError when the node is not a
dict or the type value is not a string. -/
def pyNodeType : JsonValue → Except PyError String
  | .obj fields =>
    match jsonGet fields "type" (JsonValue.str "") with
    | .str s => .ok s
    | _ => .error .attributeError
  | _ => .error .attributeError

/-- The node loop of `analyze_workflow` in the unrestricted model: the
first node whose type extraction raises aborts the whole call. -/
def pyAnalyzeLoop :
    (String × List String × List String) → List JsonValue →
      Except PyError (String × List String × List String)
  | acc, [] => .ok acc
  | acc, node :: rest =>
    match pyNodeType node with
    | .error e => .error e
    | .ok s =>
      pyAnalyzeLoop
        (updateTrigger acc.1 (strLower s),
         categorizeNode (strLower s) acc.2.1 acc.2.2) rest

/-- The metadata dictionary in the unrestricted model: the active value is
stored as whatever JSON value `data.get('active', False)` returned. -/
structure PyMetadata where
  filename : String
  active : JsonValue
  node_count : Nat
  trigger_type : String
  integrations : List String
  categories : List String
  complexity : String

/-- The body of `analyze_workflow` after a successful parse: AttributeError
when the document is not a dict, TypeError from `len` on a non-sized nodes
value, AttributeError from the node loop, else the metadata. -/
def py_analyze_parsed (filename : String) (data : JsonValue) :
    Except PyError PyMetadata :=
  match data with
  | .obj fields =>
    let nodes := jsonGet fields "nodes" (JsonValue.arr [])
    let active := jsonGet fields "active" (JsonValue.bool false)
    match pyLen nodes with
    | .error e => .error e
    | .ok n =>
      match pyAnalyzeLoop ("Manual", [], []) (pyElems nodes) with
      | .error e => .error e
      | .ok acc =>
        .ok { filename := filename
              active := active
              node_count := n
              trigger_type := acc.1
              integrations := acc.2.2
              categories := acc.2.1
              complexity := complexityOf n }
  | _ => .error .attributeError

/-- `FileOrganizer.analyze_workflow`, unrestricted: the caught parse
failures return None (the file is skipped), while shape errors after a
successful parse propagate as uncaught exceptions. -/
def py_analyze_workflow (filename : String) :
    PyReadResult → Except PyError (Option PyMetadata)
  | .unicodeErr => .ok none
  | .jsonErr => .ok none
  | .parsed v => (py_analyze_parsed filename v).map some

/-- Loop body copies of `organize_by_category` in the unrestricted model. -/
def py_category_copies (m : PyMetadata) (name : String) :
    List (String × String) :=
  (if m.categories.isEmpty then ["uncategorized"] else m.categories).map
    (fun c => (c, name))

/-- Loop body copies of `organize_by_complexity` in the unrestricted model. -/
def py_complexity_copies (m : PyMetadata) (name : String) :
    List (String × String) :=
  [(m.complexity, name)]

/-- Loop body copies of `organize_by_trigger` in the unrestricted model. -/
def py_trigger_copies (m : PyMetadata) (name : String) :
    List (String × String) :=
  [(pyReplace (strLower m.trigger_type) " " "_", name)]

/-- Loop body copies of `organize_by_integration` in the unrestricted
model. -/
def py_integration_copies (m : PyMetadata) (name : String) :
    List (String × String) :=
  (if m.integrations.isEmpty then ["no_integration"] else m.integrations).map
    (fun i => (safeIntegrationName i, name))

/-- One organizer pass in the unrestricted model: returns the copies made
before any uncaught exception together with the exception, if one was
raised. A returned None is skipped; a raised error stops the whole pass,
leaving the remaining files unprocessed. -/
def py_organize_loop (copies : PyMetadata → String → List (String × String)) :
    List PySourceFile → List (String × String) × Option PyError
  | [] => ([], none)
  | f :: rest =>
    match py_analyze_workflow f.name f.content with
    | .error e => ([], some e)
    | .ok none => py_organize_loop copies rest
    | .ok (some m) =>
      let r := py_organize_loop copies rest
      (copies m f.name ++ r.1, r.2)

/-- `organize_by_category` in the unrestricted model. -/
def py_organize_by_category (files : List PySourceFile) :
    List (String × String) × Option PyError :=
  py_organize_loop py_category_copies files

/-- `organize_by_complexity` in the unrestricted model. -/
def py_organize_by_complexity (files : List PySourceFile) :
    List (String × String) × Option PyError :=
  py_organize_loop py_complexity_copies files

/-- `organize_by_trigger` in the unrestricted model. -/
def py_organize_by_trigger (files : List PySourceFile) :
    List (String × String) × Option PyError :=
  py_organize_loop py_trigger_copies files

/-- `organize_by_integration` in the unrestricted model. -/
def py_organize_by_integration (files : List PySourceFile) :
    List (String × String) × Option PyError :=
  py_organize_loop py_integration_copies files

/-- A JSON node of the expected shape (a dict whose type value is a string
or absent), as a `Node` of the restricted model. -/
def nodeOfJson? (v : JsonValue) : Option Node :=
  match v with
  | .obj fields =>
    match jsonGet fields "type" (JsonValue.str "") with
    | .str s => some ⟨some s⟩
    | _ => none
  | _ => none

/-- All nodes converted, or None as soon as one is not of the expected
shape. -/
def nodesOfJson? : List JsonValue → Option (List Node)
  | [] => some []
  | v :: rest =>
    match nodeOfJson? v with
    | none => none
    | some n =>
      match nodesOfJson? rest with
      | none => none
      | some ns => some (n :: ns)

/-- A parsed JSON value of the expected document shape, as a `WorkflowDoc`
of the restricted model: a dict whose nodes value is a list of well-shaped
nodes and whose active value is a Boolean or absent. -/
def shapedDoc? (v : JsonValue) : Option WorkflowDoc :=
  match v with
  | .obj fields =>
    match jsonGet fields "nodes" (JsonValue.arr []) with
    | .arr elems =>
      match jsonGet fields "active" (JsonValue.bool false) with
      | .bool b => (nodesOfJson? elems).map (fun ns => ⟨ns, b⟩)
      | _ => none
    | _ => none
  | _ => none

/-- The metadata the unrestricted model produces on a document of the
expected shape: the fields of the restricted analysis, with the active
flag stored as a JSON Boolean. -/
def pyMetaOfDoc (filename : String) (d : WorkflowDoc) : PyMetadata :=
  let m := analyzeDoc filename d
  { filename := m.filename
    active := JsonValue.bool d.active
    node_count := m.node_count
    trigger_type := m.trigger_type
    integrations := m.integrations
    categories := m.categories
    complexity := m.complexity }

/-- An unrestricted read outcome folded back into the restricted model,
when possible. -/
def toReadResult : PyReadResult → Option ReadResult
  | .unicodeErr => some ReadResult.unicodeErr
  | .jsonErr => some ReadResult.jsonErr
  | .parsed v => (shapedDoc? v).map ReadResult.ok

/-- A file whose content the restricted model can represent. -/
def shapedFile (f : PySourceFile) : Bool :=
  (toReadResult f.content).isSome

/-- The restricted-model view of a shaped file. -/
def fileToSimple (f : PySourceFile) : SourceFile :=
  ⟨f.name, (toReadResult f.content).getD ReadResult.jsonErr⟩

/-- A well-shaped JSON node yields its type string without raising. -/
theorem pyNodeType_of_nodeOfJson (e : JsonValue) (n : Node)
    (h : nodeOfJson? e = some n) :
    ∃ s, pyNodeType e = Except.ok s ∧ n.type = some s := by
  cases e with
  | obj fields =>
    simp only [nodeOfJson?] at h
    cases ht : jsonGet fields "type" (JsonValue.str "") with
    | str s =>
      simp only [ht] at h
      obtain rfl : Node.mk (some s) = n := Option.some.inj h
      exact ⟨s, by simp [pyNodeType, ht], rfl⟩
    | null => simp only [ht] at h; exact Option.noConfusion h
    | bool b => simp only [ht] at h; exact Option.noConfusion h
    | num k => simp only [ht] at h; exact Option.noConfusion h
    | arr xs => simp only [ht] at h; exact Option.noConfusion h
    | obj fs2 => simp only [ht] at h; exact Option.noConfusion h
  | null => simp only [nodeOfJson?] at h; exact Option.noConfusion h
  | bool b => simp only [nodeOfJson?] at h; exact Option.noConfusion h
  | num k => simp only [nodeOfJson?] at h; exact Option.noConfusion h
  | str s => simp only [nodeOfJson?] at h; exact Option.noConfusion h
  | arr xs => simp only [nodeOfJson?] at h; exact Option.noConfusion h

/-- On a list of well-shaped nodes the unrestricted node loop raises
nothing and computes the fold of the restricted model, and the lengths
agree. -/
theorem pyAnalyzeLoop_shaped (elems : List JsonValue) :
    ∀ (ns : List Node) (acc : String × List String × List String),
      nodesOfJson? elems = some ns →
      pyAnalyzeLoop acc elems = Except.ok (ns.foldl analyzeStep acc) ∧
        elems.length = ns.length := by
  induction elems with
  | nil =>
    intro ns acc h
    simp only [nodesOfJson?] at h
    obtain rfl : ([] : List Node) = ns := Option.some.inj h
    exact ⟨rfl, rfl⟩
  | cons e es ih =>
    intro ns acc h
    simp only [nodesOfJson?] at h
    cases he : nodeOfJson? e with
    | none => simp only [he] at h; exact Option.noConfusion h
    | some n =>
      simp only [he] at h
      cases hns : nodesOfJson? es with
      | none => simp only [hns] at h; exact Option.noConfusion h
      | some ns' =>
        simp only [hns] at h
        obtain rfl : n :: ns' = ns := Option.some.inj h
        obtain ⟨s, hpt, hts⟩ := pyNodeType_of_nodeOfJson e n he
        have hstep : analyzeStep acc n =
            (updateTrigger acc.1 (strLower s),
             categorizeNode (strLower s) acc.2.1 acc.2.2) := by
          simp [analyzeStep, hts]
        refine ⟨?_, ?_⟩
        · simp only [pyAnalyzeLoop, hpt]
          rw [List.foldl_cons, ← hstep]
          exact (ih ns' (analyzeStep acc n) hns).1
        · have hlen := (ih ns' (analyzeStep acc n) hns).2
          simp [hlen]

/-- On a document of the expected shape the unrestricted analysis raises
nothing and computes exactly the metadata of the restricted model. -/
theorem py_analyze_parsed_shaped (filename : String) (v : JsonValue)
    (d : WorkflowDoc) (h : shapedDoc? v = some d) :
    py_analyze_parsed filename v = Except.ok (pyMetaOfDoc filename d) := by
  cases v with
  | obj fields =>
    simp only [shapedDoc?] at h
    cases hn : jsonGet fields "nodes" (JsonValue.arr []) with
    | arr elems =>
      simp only [hn] at h
      cases ha : jsonGet fields "active" (JsonValue.bool false) with
      | bool b =>
        simp only [ha] at h
        cases hns : nodesOfJson? elems with
        | none => simp only [hns] at h; exact Option.noConfusion h
        | some ns =>
          simp only [hns] at h
          obtain rfl : WorkflowDoc.mk ns b = d := Option.some.inj h
          obtain ⟨hloop, hlen⟩ := pyAnalyzeLoop_shaped elems ns ("Manual", [], []) hns
          simp only [py_analyze_parsed, hn, ha, pyLen, pyElems, hloop]
          rw [hlen]
          rfl
      | null => simp only [ha] at h; exact Option.noConfusion h
      | num k => simp only [ha] at h; exact Option.noConfusion h
      | str s => simp only [ha] at h; exact Option.noConfusion h
      | arr a2 => simp only [ha] at h; exact Option.noConfusion h
      | obj o2 => simp only [ha] at h; exact Option.noConfusion h
    | null => simp only [hn] at h; exact Option.noConfusion h
    | bool b => simp only [hn] at h; exact Option.noConfusion h
    | num k => simp only [hn] at h; exact Option.noConfusion h
    | str s => simp only [hn] at h; exact Option.noConfusion h
    | obj o2 => simp only [hn] at h; exact Option.noConfusion h
  | null => simp only [shapedDoc?] at h; exact Option.noConfusion h
  | bool b => simp only [shapedDoc?] at h; exact Option.noConfusion h
  | num k => simp only [shapedDoc?] at h; exact Option.noConfusion h
  | str s => simp only [shapedDoc?] at h; exact Option.noConfusion h
  | arr xs => simp only [shapedDoc?] at h; exact Option.noConfusion h

/-- On a batch of shaped files an unrestricted organizer pass raises
nothing and makes exactly the copies of the corresponding restricted
pass. -/
theorem py_organize_loop_shaped
    (copies : PyMetadata → String → List (String × String))
    (sc : SourceFile → List (String × String))
    (hcopy : ∀ name d, copies (pyMetaOfDoc name d) name = sc ⟨name, ReadResult.ok d⟩)
    (hskip : ∀ name, sc ⟨name, ReadResult.unicodeErr⟩ = [] ∧
        sc ⟨name, ReadResult.jsonErr⟩ = [])
    (files : List PySourceFile) (h : ∀ f ∈ files, shapedFile f = true) :
    (py_organize_loop copies files).2 = none ∧
    (py_organize_loop copies files).1 = (files.map fileToSimple).flatMap sc := by
  induction files with
  | nil => exact ⟨rfl, rfl⟩
  | cons f fs ih =>
    have hf := h f (List.mem_cons_self f fs)
    have hrest := ih (fun g hg => h g (List.mem_cons_of_mem f hg))
    obtain ⟨name, content⟩ := f
    cases content with
    | unicodeErr =>
      simp only [py_organize_loop, py_analyze_workflow, List.map_cons,
        List.flatMap_cons, fileToSimple, toReadResult, Option.getD_some,
        (hskip name).1, List.nil_append]
      exact hrest
    | jsonErr =>
      simp only [py_organize_loop, py_analyze_workflow, List.map_cons,
        List.flatMap_cons, fileToSimple, toReadResult, Option.getD_some,
        (hskip name).2, List.nil_append]
      exact hrest
    | parsed v =>
      cases hsd : shapedDoc? v with
      | none => simp [shapedFile, toReadResult, hsd] at hf
      | some d =>
        have hpa := py_analyze_parsed_shaped name v d hsd
        simp only [py_organize_loop, py_analyze_workflow, hpa, Except.map,
          List.map_cons, List.flatMap_cons, fileToSimple, toReadResult, hsd,
          Option.map_some, Option.getD_some]
        exact ⟨hrest.1, by rw [hrest.2, hcopy name d]; rfl⟩

/-- Counterexample for C2: a file whose content is valid UTF-8 and valid
JSON but a top-level array raises an uncaught AttributeError at the
`data.get` call; the organize pass dies with that exception after copying
only the files before it, so the failure is fatal to the batch and the
file after it is never organized. -/
theorem C2_parse_error_isolation_counterexample :
    (py_organize_by_category
        [⟨"good.json", PyReadResult.parsed (JsonValue.obj
            [("nodes", JsonValue.arr []), ("active", JsonValue.bool true)])⟩,
         ⟨"bad.json", PyReadResult.parsed (JsonValue.arr
            [JsonValue.num 1, JsonValue.num 2, JsonValue.num 3])⟩,
         ⟨"later.json", PyReadResult.parsed (JsonValue.obj
            [("nodes", JsonValue.arr [])])⟩]).2 =
      some PyError.attributeError ∧
    (py_organize_by_category
        [⟨"good.json", PyReadResult.parsed (JsonValue.obj
            [("nodes", JsonValue.arr []), ("active", JsonValue.bool true)])⟩,
         ⟨"bad.json", PyReadResult.parsed (JsonValue.arr
            [JsonValue.num 1, JsonValue.num 2, JsonValue.num 3])⟩,
         ⟨"later.json", PyReadResult.parsed (JsonValue.obj
            [("nodes", JsonValue.arr [])])⟩]).1 =
      [("uncategorized", "good.json")] :=
  ⟨rfl, rfl⟩

/-- Claim C2 amended: analyze returns None, reported and skipped, exactly
on the two caught parse failures (malformed structured text or invalid
text encoding); for files whose well-formed JSON has the expected document
shape no other exception arises, and every organizer pass completes with
exactly the copies of the restricted model; but a file whose valid JSON
has another shape raises an uncaught AttributeError or TypeError that
propagates into the organizer loop. -/
theorem C2_parse_error_isolation_amended :
    (∀ filename r, py_analyze_workflow filename r = Except.ok none ↔
        (r = PyReadResult.unicodeErr ∨ r = PyReadResult.jsonErr)) ∧
    (∀ filename v d, shapedDoc? v = some d →
        py_analyze_workflow filename (PyReadResult.parsed v) =
          Except.ok (some (pyMetaOfDoc filename d))) ∧
    (∀ files : List PySourceFile, (∀ f ∈ files, shapedFile f = true) →
        (py_organize_by_category files).2 = none ∧
        (py_organize_by_category files).1 =
          organize_by_category (files.map fileToSimple)) ∧
    (∀ files : List PySourceFile, (∀ f ∈ files, shapedFile f = true) →
        (py_organize_by_complexity files).2 = none ∧
        (py_organize_by_complexity files).1 =
          organize_by_complexity (files.map fileToSimple)) ∧
    (∀ files : List PySourceFile, (∀ f ∈ files, shapedFile f = true) →
        (py_organize_by_trigger files).2 = none ∧
        (py_organize_by_trigger files).1 =
          organize_by_trigger (files.map fileToSimple)) ∧
    (∀ files : List PySourceFile, (∀ f ∈ files, shapedFile f = true) →
        (py_organize_by_integration files).2 = none ∧
        (py_organize_by_integration files).1 =
          organize_by_integration (files.map fileToSimple)) ∧
    py_analyze_workflow "bad.json"
        (PyReadResult.parsed (JsonValue.arr
          [JsonValue.num 1, JsonValue.num 2, JsonValue.num 3])) =
      Except.error PyError.attributeError ∧
    py_analyze_workflow "bad2.json"
        (PyReadResult.parsed (JsonValue.obj [("nodes", JsonValue.num 3)])) =
      Except.error PyError.typeError ∧
    py_analyze_workflow "bad3.json"
        (PyReadResult.parsed (JsonValue.obj
          [("nodes", JsonValue.arr
            [JsonValue.obj [("type", JsonValue.num 42)]])])) =
      Except.error PyError.attributeError := by
  refine ⟨?_, ?_, ?_, ?_, ?_, ?_, rfl, rfl, rfl⟩
  · intro filename r
    cases r with
    | unicodeErr => simp [py_analyze_workflow]
    | jsonErr => simp [py_analyze_workflow]
    | parsed v =>
      cases hpa : py_analyze_parsed filename v <;>
        simp [py_analyze_workflow, hpa, Except.map]
  · intro filename v d hd
    have hpa := py_analyze_parsed_shaped filename v d hd
    simp [py_analyze_workflow, hpa, Except.map]
  · intro files h
    exact py_organize_loop_shaped py_category_copies category_copies
      (fun name d => rfl) (fun name => ⟨rfl, rfl⟩) files h
  · intro files h
    exact py_organize_loop_shaped py_complexity_copies complexity_copies
      (fun name d => rfl) (fun name => ⟨rfl, rfl⟩) files h
  · intro files h
    exact py_organize_loop_shaped py_trigger_copies trigger_copies
      (fun name d => rfl) (fun name => ⟨rfl, rfl⟩) files h
  · intro files h
    exact py_organize_loop_shaped py_integration_copies integration_copies
      (fun name d => rfl) (fun name => ⟨rfl, rfl⟩) files h

/-- Witness for the amended C2: a shaped one-node document analyzed in the
unrestricted model yields the restricted-model metadata. -/
theorem C2_parse_error_isolation_amended_witness :
    py_analyze_workflow "w.json"
        (PyReadResult.parsed (JsonValue.obj
          [("nodes", JsonValue.arr [JsonValue.obj [("type", JsonValue.str "n-slack")]]),
           ("active", JsonValue.bool true)])) =
      Except.ok (some (pyMetaOfDoc "w.json" ⟨[⟨some "n-slack"⟩], true⟩)) :=
  C2_parse_error_isolation_amended.2.1 "w.json" _ _ (by decide)
